import Mathlib

/-!
Verification of the rt82display-weather forecast-to-bitmap pipeline.

The Python sources (rt82weather/providers/bbc.py, rt82weather/icons.py,
rt82weather/render.py, rt82weather/config.py) are shallowly embedded here:

* Python strings are lists of Unicode code points (`PyStr`); `str.lower`,
  `str.strip` and `str.capitalize` are embedded over the ASCII letter and
  whitespace ranges, which covers every string the pipeline manipulates.
* PIL images are a mode, a width, a height and a total pixel function;
  each PIL drawing primitive is embedded as an overwrite of the pixels of
  an explicit, executable coverage region.  Float coordinates become exact
  rationals (irrational float constants such as cos 45 degrees are embedded
  as the rational printed value of the Python float; no theorem below
  depends on the low-order digits).
* Font loading and font metrics are external inputs (whether a font path
  exists on disk, and what bounding box a font reports for a string), so
  the renderer is parameterized by them and every theorem quantifies over
  them.
* Fallible Python paths (uncaught exceptions) are embedded with `Except`.
-/

namespace RT82

/-! ## Python string model -/

/-- A Python string, as its list of Unicode code points. -/
abbrev PyStr := List Nat

/-- Code points of a Lean string literal, used to transcribe Python literals. -/
def pystr (s : String) : PyStr := s.data.map Char.toNat

/-- Whitespace as recognized by Python `str.strip` (ASCII range: space and
the five control characters 9-13). -/
def isPySpace (c : Nat) : Bool := decide (c = 32 ∨ (9 ≤ c ∧ c ≤ 13))

/-- Lower-casing of one code point, embedding Python `str.lower` on the
ASCII letters (the only letters the pipeline's strings contain). -/
def lowerChar (c : Nat) : Nat := if 65 ≤ c ∧ c ≤ 90 then c + 32 else c

/-- Upper-casing of one code point (ASCII), for Python `str.capitalize`. -/
def upperChar (c : Nat) : Nat := if 97 ≤ c ∧ c ≤ 122 then c - 32 else c

/-- Python `str.lower`. -/
def pyLower (s : PyStr) : PyStr := s.map lowerChar

/-- Python `str.strip`: drop leading and trailing whitespace. -/
def pyStrip (s : PyStr) : PyStr :=
  ((s.dropWhile isPySpace).reverse.dropWhile isPySpace).reverse

/-- Python `str.capitalize`: first character upper-cased, every remaining
character lower-cased. -/
def pyCapitalize : PyStr → PyStr
  | [] => []
  | c :: rest => upperChar c :: rest.map lowerChar

/-! ## Icon categories (providers/__init__.py, class IconType) -/

/-- The closed enumeration of icon categories (`IconType` in the source). -/
inductive IconType
  | SUN
  | PARTLY_CLOUDY
  | CLOUD
  | RAIN
  | SNOW
  | THUNDERSTORM
  | MIST
deriving DecidableEq, Repr

/-! ## Condition classifier (providers/bbc.py) -/

/-- Association-list lookup, the embedding of Python `dict.get` over the
literal condition dictionary. -/
def alookup (k : PyStr) : List (PyStr × IconType) → Option IconType
  | [] => none
  | e :: rest => if k = e.1 then some e.2 else alookup k rest

/-- The literal `_CONDITION_TO_ICON` dictionary of providers/bbc.py, in
source order. -/
def CONDITION_TO_ICON : List (PyStr × IconType) :=
  [ (pystr "sunny", .SUN),
    (pystr "clear", .SUN),
    (pystr "clear sky", .SUN),
    (pystr "sunny intervals", .PARTLY_CLOUDY),
    (pystr "light cloud", .PARTLY_CLOUDY),
    (pystr "partly cloudy", .PARTLY_CLOUDY),
    (pystr "cloudy", .CLOUD),
    (pystr "white cloud", .CLOUD),
    (pystr "grey cloud", .CLOUD),
    (pystr "thick cloud", .CLOUD),
    (pystr "drizzle", .RAIN),
    (pystr "light shower", .RAIN),
    (pystr "light rain shower", .RAIN),
    (pystr "light rain showers", .RAIN),
    (pystr "light showers", .RAIN),
    (pystr "light rain", .RAIN),
    (pystr "heavy rain", .RAIN),
    (pystr "heavy showers", .RAIN),
    (pystr "heavy shower", .RAIN),
    (pystr "heavy rain shower", .RAIN),
    (pystr "heavy rain showers", .RAIN),
    (pystr "thundery shower", .THUNDERSTORM),
    (pystr "thundery showers", .THUNDERSTORM),
    (pystr "thunderstorm", .THUNDERSTORM),
    (pystr "tropical storm", .THUNDERSTORM),
    (pystr "misty", .MIST),
    (pystr "mist", .MIST),
    (pystr "fog", .MIST),
    (pystr "foggy", .MIST),
    (pystr "hazy", .MIST),
    (pystr "light snow", .SNOW),
    (pystr "light snow shower", .SNOW),
    (pystr "light snow showers", .SNOW),
    (pystr "cloudy with light snow", .SNOW),
    (pystr "heavy snow", .SNOW),
    (pystr "heavy snow shower", .SNOW),
    (pystr "heavy snow showers", .SNOW),
    (pystr "cloudy with heavy snow", .SNOW),
    (pystr "sleet", .RAIN),
    (pystr "sleet shower", .RAIN),
    (pystr "sleet showers", .RAIN),
    (pystr "cloudy with sleet", .RAIN),
    (pystr "hail", .RAIN),
    (pystr "hail shower", .RAIN),
    (pystr "hail showers", .RAIN),
    (pystr "cloudy with hail", .RAIN) ]

/-- The classifier `_condition_to_icon` of providers/bbc.py:
`_CONDITION_TO_ICON.get(condition.lower().strip(), IconType.CLOUD)`. -/
def condition_to_icon (condition : PyStr) : IconType :=
  (alookup (pyStrip (pyLower condition)) CONDITION_TO_ICON).getD .CLOUD

/-- The vocabulary table of specification section 4.1, transcribed in the
specification's order (grouped Sun, PartlyCloudy, Cloud, Rain,
Thunderstorm, Mist, Snow, with each "(s)" phrase expanded to its singular
and plural form). -/
def specConditionTable : List (PyStr × IconType) :=
  [ (pystr "sunny", .SUN),
    (pystr "clear", .SUN),
    (pystr "clear sky", .SUN),
    (pystr "sunny intervals", .PARTLY_CLOUDY),
    (pystr "light cloud", .PARTLY_CLOUDY),
    (pystr "partly cloudy", .PARTLY_CLOUDY),
    (pystr "cloudy", .CLOUD),
    (pystr "white cloud", .CLOUD),
    (pystr "grey cloud", .CLOUD),
    (pystr "thick cloud", .CLOUD),
    (pystr "drizzle", .RAIN),
    (pystr "light shower", .RAIN),
    (pystr "light rain shower", .RAIN),
    (pystr "light rain showers", .RAIN),
    (pystr "light showers", .RAIN),
    (pystr "light rain", .RAIN),
    (pystr "heavy rain", .RAIN),
    (pystr "heavy showers", .RAIN),
    (pystr "heavy shower", .RAIN),
    (pystr "heavy rain shower", .RAIN),
    (pystr "heavy rain showers", .RAIN),
    (pystr "sleet", .RAIN),
    (pystr "sleet shower", .RAIN),
    (pystr "sleet showers", .RAIN),
    (pystr "cloudy with sleet", .RAIN),
    (pystr "hail", .RAIN),
    (pystr "hail shower", .RAIN),
    (pystr "hail showers", .RAIN),
    (pystr "cloudy with hail", .RAIN),
    (pystr "thundery shower", .THUNDERSTORM),
    (pystr "thundery showers", .THUNDERSTORM),
    (pystr "thunderstorm", .THUNDERSTORM),
    (pystr "tropical storm", .THUNDERSTORM),
    (pystr "misty", .MIST),
    (pystr "mist", .MIST),
    (pystr "fog", .MIST),
    (pystr "foggy", .MIST),
    (pystr "hazy", .MIST),
    (pystr "light snow", .SNOW),
    (pystr "light snow shower", .SNOW),
    (pystr "light snow showers", .SNOW),
    (pystr "cloudy with light snow", .SNOW),
    (pystr "heavy snow", .SNOW),
    (pystr "heavy snow shower", .SNOW),
    (pystr "heavy snow showers", .SNOW),
    (pystr "cloudy with heavy snow", .SNOW) ]

/-! ### Association-list lookup lemmas -/

theorem alookup_eq_none_iff (k : PyStr) (l : List (PyStr × IconType)) :
    alookup k l = none ↔ k ∉ l.map Prod.fst := by
  induction l with
  | nil => simp [alookup]
  | cons e rest ih =>
    by_cases h : k = e.1
    · simp [alookup, h]
    · simp [alookup, h, ih]

theorem mem_of_alookup_eq_some {k : PyStr} {v : IconType}
    {l : List (PyStr × IconType)} (h : alookup k l = some v) : (k, v) ∈ l := by
  induction l with
  | nil => simp [alookup] at h
  | cons e rest ih =>
    by_cases hk : k = e.1
    · simp [alookup, hk] at h
      subst hk h
      exact List.mem_cons_self _ _
    · simp [alookup, hk] at h
      exact List.mem_cons_of_mem _ (ih h)

theorem alookup_eq_some_of_mem {k : PyStr} {v : IconType}
    {l : List (PyStr × IconType)} (hnd : (l.map Prod.fst).Nodup)
    (hm : (k, v) ∈ l) : alookup k l = some v := by
  induction l with
  | nil => simp at hm
  | cons e rest ih =>
    rw [List.map_cons, List.nodup_cons] at hnd
    rcases List.mem_cons.1 hm with h | h
    · rw [← h]
      simp [alookup]
    · have hk : k ≠ e.1 := by
        intro hke
        exact hnd.1 (hke ▸ List.mem_map_of_mem Prod.fst h)
      simp [alookup, hk]
      exact ih hnd.2 h

/-- The keys of the specification table are pairwise distinct. -/
theorem specConditionTable_nodup_keys : (specConditionTable.map Prod.fst).Nodup := by
  decide

/-- Every entry of the source dictionary is an entry of the specification
table. -/
theorem code_table_subset_spec :
    ∀ p ∈ CONDITION_TO_ICON, p ∈ specConditionTable := by
  decide

/-- Every key of the specification table is a key of the source dictionary. -/
theorem spec_keys_subset_code :
    ∀ k ∈ specConditionTable.map Prod.fst, k ∈ CONDITION_TO_ICON.map Prod.fst := by
  decide

/-- Looked up at any key, the source dictionary and the specification table
agree. -/
theorem alookup_tables_agree (k : PyStr) :
    alookup k CONDITION_TO_ICON = alookup k specConditionTable := by
  cases hc : alookup k CONDITION_TO_ICON with
  | some v =>
    exact (alookup_eq_some_of_mem specConditionTable_nodup_keys
      (code_table_subset_spec _ (mem_of_alookup_eq_some hc))).symm
  | none =>
    have hk : k ∉ CONDITION_TO_ICON.map Prod.fst := (alookup_eq_none_iff _ _).1 hc
    exact ((alookup_eq_none_iff k specConditionTable).2
      (fun hin => hk (spec_keys_subset_code _ hin))).symm

/-! ### Commuting strip with lower -/

theorem isPySpace_lowerChar (c : Nat) : isPySpace (lowerChar c) = isPySpace c := by
  simp only [isPySpace, lowerChar]
  split
  · next h => exact decide_eq_decide.mpr (by omega)
  · rfl

theorem dropWhile_map_lowerChar (l : PyStr) :
    (l.map lowerChar).dropWhile isPySpace = (l.dropWhile isPySpace).map lowerChar := by
  induction l with
  | nil => rfl
  | cons c t ih =>
    simp only [List.map_cons, List.dropWhile_cons, isPySpace_lowerChar]
    cases h : isPySpace c with
    | true => simpa [h] using ih
    | false => simp [h]

theorem pyStrip_pyLower (s : PyStr) : pyStrip (pyLower s) = pyLower (pyStrip s) := by
  simp only [pyStrip, pyLower]
  rw [dropWhile_map_lowerChar, ← List.map_reverse, dropWhile_map_lowerChar,
    ← List.map_reverse]

theorem lowerChar_idem (c : Nat) : lowerChar (lowerChar c) = lowerChar c := by
  simp only [lowerChar]
  split
  · next h => rw [if_neg (by omega)]
  · rfl

theorem pyLower_idem (s : PyStr) : pyLower (pyLower s) = pyLower s := by
  simp only [pyLower, List.map_map]
  exact List.map_congr_left (fun c _ => lowerChar_idem c)

/-! ## Exact fraction arithmetic

Python float coordinates are embedded as exact fractions of integers.
The type is deliberately unnormalized (no gcd reduction), so that every
operation is plain integer arithmetic the kernel evaluates directly.
Every fraction constructed below has a positive denominator, and the
comparison, floor and absolute-value operations are correct for positive
denominators. -/

structure Frac where
  num : Int
  den : Int
deriving DecidableEq, Repr

/-- Build the fraction `n / d` (used with positive `d` only). -/
def frac (n d : Int) : Frac := ⟨n, d⟩

def Frac.ofInt (n : Int) : Frac := ⟨n, 1⟩

def Frac.ofNat (n : Nat) : Frac := ⟨n, 1⟩

instance (n : Nat) : OfNat Frac n := ⟨⟨n, 1⟩⟩

instance : Add Frac := ⟨fun a b => ⟨a.num * b.den + b.num * a.den, a.den * b.den⟩⟩

instance : Sub Frac := ⟨fun a b => ⟨a.num * b.den - b.num * a.den, a.den * b.den⟩⟩

instance : Mul Frac := ⟨fun a b => ⟨a.num * b.num, a.den * b.den⟩⟩

instance : Neg Frac := ⟨fun a => ⟨-a.num, a.den⟩⟩

/-- Boolean comparison `a <= b` (positive denominators). -/
def Frac.ble (a b : Frac) : Bool := decide (a.num * b.den ≤ b.num * a.den)

/-- Boolean comparison `a < b` (positive denominators). -/
def Frac.blt (a b : Frac) : Bool := decide (a.num * b.den < b.num * a.den)

/-- Absolute value (positive denominators). -/
def Frac.fabs (a : Frac) : Frac := ⟨|a.num|, a.den⟩

/-- Mathematical floor (positive denominators), Python `//` on a float. -/
def Frac.floor (a : Frac) : Int := a.num.fdiv a.den

/-- Python `max` of two numbers. -/
def Frac.max2 (a b : Frac) : Frac := if Frac.ble a b then b else a

/-! ## Bitmap model

A PIL image is embedded as its mode, size and total pixel function.  Each
PIL drawing primitive overwrites the pixels of an executable coverage
region computed from the primitive's coordinates. -/

/-- Pixel mode of a PIL image. -/
inductive PixMode
  | RGB
  | RGBA
deriving DecidableEq, Repr

/-- One pixel.  An RGB image carries alpha 255 on every pixel. -/
structure Pixel where
  r : Nat
  g : Nat
  b : Nat
  a : Nat
deriving DecidableEq, Repr

/-- The fully transparent pixel, PIL `(0, 0, 0, 0)`. -/
def clearPixel : Pixel := ⟨0, 0, 0, 0⟩

/-- A bitmap: mode, dimensions, and the pixel at each coordinate. -/
structure Img where
  mode : PixMode
  width : Nat
  height : Nat
  px : Nat → Nat → Pixel

/-- PIL `Image.new(mode, (w, h), color)`. -/
def newImg (mode : PixMode) (w h : Nat) (c : Pixel) : Img :=
  ⟨mode, w, h, fun _ _ => c⟩

/-- Pixels covered by `ImageDraw.ellipse([x0, y0, x1, y1])`: the points of
the inscribed ellipse of the bounding box.  The test is the standard
ellipse inequality with the halvings cleared (scaled through by 16). -/
def ellipseCov (x0 y0 x1 y1 : Frac) (x y : Nat) : Bool :=
  let sx := x0 + x1
  let sy := y0 + y1
  let a := x1 - x0
  let b := y1 - y0
  let ex := Frac.ofNat x * 2 - sx
  let ey := Frac.ofNat y * 2 - sy
  Frac.ble (b * b * (ex * ex) + a * a * (ey * ey)) (a * a * (b * b))

/-- Pixels covered by `ImageDraw.rectangle([x0, y0, x1, y1])`. -/
def rectCov (x0 y0 x1 y1 : Frac) (x y : Nat) : Bool :=
  Frac.ble x0 (Frac.ofNat x) && Frac.ble (Frac.ofNat x) x1 &&
  Frac.ble y0 (Frac.ofNat y) && Frac.ble (Frac.ofNat y) y1

/-- Pixels covered by `ImageDraw.line([(x1, y1), (x2, y2)], width = w)`:
points within distance `w / 2` of the segment, decided by the
division-free point-to-segment distance test (`4 dist^2 <= w^2`). -/
def lineCov (x1 y1 x2 y2 w : Frac) (x y : Nat) : Bool :=
  let px := Frac.ofNat x
  let py := Frac.ofNat y
  let dx := x2 - x1
  let dy := y2 - y1
  let len2 := dx * dx + dy * dy
  let s := (px - x1) * dx + (py - y1) * dy
  if Frac.ble s 0 then
    Frac.ble (((px - x1) * (px - x1) + (py - y1) * (py - y1)) * 4) (w * w)
  else if Frac.ble len2 s then
    Frac.ble (((px - x2) * (px - x2) + (py - y2) * (py - y2)) * 4) (w * w)
  else
    let cross := dx * (py - y1) - dy * (px - x1)
    Frac.ble (cross * cross * 4) (w * w * len2)

/-- Whether the edge from `p` to `q` crosses the horizontal ray going left
from `(x, y)`: the standard even-odd crossing test, with the slope
division cleared against the sign of `q.2 - p.2`. -/
def crossesRay (p q : Frac × Frac) (x y : Frac) : Bool :=
  (Frac.ble p.2 y && Frac.blt y q.2 &&
    Frac.blt ((x - p.1) * (q.2 - p.2)) ((q.1 - p.1) * (y - p.2))) ||
  (Frac.ble q.2 y && Frac.blt y p.2 &&
    Frac.blt ((q.1 - p.1) * (y - p.2)) ((x - p.1) * (q.2 - p.2)))

/-- Pixels covered by `ImageDraw.polygon(pts)`: even-odd interior of the
closed polygon. -/
def polyCov (pts : List (Frac × Frac)) (x y : Nat) : Bool :=
  let es := pts.zip (pts.drop 1 ++ pts.take 1)
  decide ((es.countP (fun e => crossesRay e.1 e.2 (Frac.ofNat x) (Frac.ofNat y))) % 2 = 1)

/-- One drawing call: the pixels it covers and the fill color it writes. -/
abbrev Shape := (Nat → Nat → Bool) × Pixel

/-- Execute one drawing call on an image. -/
def drawShape (s : Shape) (img : Img) : Img :=
  { img with px := fun x y => if s.1 x y then s.2 else img.px x y }

/-- Execute a list of drawing calls in order. -/
def paintAll : List Shape → Img → Img
  | [], img => img
  | s :: rest, img => paintAll rest (drawShape s img)

/-! ## Icon synthesizer (icons.py) -/

/-- Icon palette of icons.py (alpha 255: PIL fills RGB colors opaquely). -/
def SUN_YELLOW : Pixel := ⟨255, 210, 50, 255⟩

def CLOUD_WHITE : Pixel := ⟨220, 220, 230, 255⟩

def CLOUD_GREY : Pixel := ⟨160, 165, 175, 255⟩

def RAIN_BLUE : Pixel := ⟨80, 170, 255, 255⟩

def SNOW_WHITE : Pixel := ⟨230, 235, 255, 255⟩

def BOLT_YELLOW : Pixel := ⟨255, 240, 80, 255⟩

def MIST_GREY : Pixel := ⟨180, 185, 195, 255⟩

/-- Rational embedding of the Python float `math.cos(math.radians(45))`
(the printed value of the double; no theorem below depends on its
low-order digits). -/
def sqrtHalf : Frac := frac 7071067811865476 (10 ^ 16)

/-- The `(cos, sin)` pairs of the angles `0, 45, ..., 315` degrees walked
by the ray loop of `_draw_sun` (rational embeddings of the float values;
the exact cosines of 90, 180, 270 degrees stand in for Python's
sub-1e-15 float residues). -/
def rayDirs : List (Frac × Frac) :=
  [ (1, 0), (sqrtHalf, sqrtHalf), (0, 1), (-sqrtHalf, sqrtHalf),
    (-1, 0), (-sqrtHalf, -sqrtHalf), (0, -1), (sqrtHalf, -sqrtHalf) ]

/-- The drawing calls of `_draw_sun`: a filled circle of radius `r` and 8
radiating rays of length `0.55 * r` starting `3` outside the circle, of
width `max(2, r // 6)`. -/
def draw_sun (cx cy r : Frac) : List Shape :=
  (ellipseCov (cx - r) (cy - r) (cx + r) (cy + r), SUN_YELLOW) ::
  rayDirs.map (fun d =>
    (lineCov (cx + d.1 * (r + 3)) (cy + d.2 * (r + 3))
      (cx + d.1 * (r + 3 + r * frac 55 100)) (cy + d.2 * (r + 3 + r * frac 55 100))
      (Frac.max2 2 (Frac.ofInt ((r * frac 1 6).floor))), SUN_YELLOW))

/-- The drawing calls of `_draw_cloud`: three overlapping ellipses and a
rectangular base. -/
def draw_cloud (cx cy w h : Frac) (color : Pixel) : List Shape :=
  let ew := w * frac 45 100
  let eh := h * frac 55 100
  [ (ellipseCov (cx - w * frac 35 100) (cy - h * frac 15 100)
      (cx - w * frac 35 100 + ew) (cy - h * frac 15 100 + eh), color),
    (ellipseCov (cx - w * frac 10 100) (cy - h * frac 45 100)
      (cx - w * frac 10 100 + ew * frac 110 100) (cy - h * frac 45 100 + eh * frac 110 100), color),
    (ellipseCov (cx + w * frac 5 100) (cy - h * frac 20 100)
      (cx + w * frac 5 100 + ew) (cy - h * frac 20 100 + eh), color),
    (rectCov (cx - w * frac 35 100) (cy + h * frac 5 100)
      (cx + w * frac 45 100) (cy + h * frac 25 100), color) ]

/-- The drawing calls of `_draw_rain_drops`: `count` diagonal segments
below the cloud (integer arithmetic with Python floor division). -/
def draw_rain_drops (cx cy w : Int) (count : Nat) : List Shape :=
  let spacing := w.fdiv (count + 1)
  let start_x := cx - w.fdiv 2 + spacing
  (List.range count).map (fun i =>
    let x := Frac.ofInt (start_x + i * spacing)
    (lineCov x (Frac.ofInt cy) (x - 3) (Frac.ofInt cy + 10) 2, RAIN_BLUE))

/-- The drawing calls of `_draw_snow_dots`: `count` radius-2 dots in a
staggered two-row pattern. -/
def draw_snow_dots (cx cy w : Int) (count : Nat) : List Shape :=
  let spacing := w.fdiv (count + 1)
  let start_x := cx - w.fdiv 2 + spacing
  (List.range count).map (fun i =>
    let x := Frac.ofInt (start_x + i * spacing)
    let y := Frac.ofInt (cy + (i % 2) * 5)
    (ellipseCov (x - 2) (y - 2) (x + 2) (y + 2), SNOW_WHITE))

/-- The drawing call of `_draw_bolt`: the jagged filled polygon. -/
def draw_bolt (cx cy : Frac) : List Shape :=
  [ (polyCov [ (cx - 2, cy), (cx - 6, cy + 10), (cx - 1, cy + 8),
      (cx + 2, cy + 18), (cx + 4, cy + 8), (cx + 1, cy + 10) ], BOLT_YELLOW) ]

/-- The drawing calls `draw_icon` issues for a category at a size,
following the dispatch of icons.py line by line (`size // k` is Python
integer division; `int(size * 0.5)` is the float product floored). -/
def iconShapes (t : IconType) (size : Nat) : List Shape :=
  let cx : Int := (size / 2 : Nat)
  let cy : Int := (size / 2 : Nat)
  let r : Int := (size / 4 : Nat)
  match t with
  | .SUN => draw_sun (Frac.ofInt cx) (Frac.ofInt cy) (Frac.ofInt r)
  | .PARTLY_CLOUDY =>
      draw_sun (Frac.ofInt cx - Frac.ofNat (size / 8)) (Frac.ofInt cy - Frac.ofNat (size / 8))
        (Frac.ofInt r * frac 7 10) ++
      draw_cloud (Frac.ofInt cx + Frac.ofNat (size / 10)) (Frac.ofInt cy + Frac.ofNat (size / 10))
        (Frac.ofNat size * frac 5 10) (Frac.ofNat size * frac 35 100) CLOUD_WHITE
  | .CLOUD =>
      draw_cloud (Frac.ofInt cx) (Frac.ofInt cy - Frac.ofNat (size / 12))
        (Frac.ofNat size * frac 6 10) (Frac.ofNat size * frac 4 10) CLOUD_GREY
  | .RAIN =>
      draw_cloud (Frac.ofInt cx) (Frac.ofInt cy - Frac.ofNat (size / 6))
        (Frac.ofNat size * frac 55 100) (Frac.ofNat size * frac 35 100) CLOUD_GREY ++
      draw_rain_drops cx (cy + ((size / 6 : Nat) : Int)) (Frac.ofNat size * frac 5 10).floor 4
  | .SNOW =>
      draw_cloud (Frac.ofInt cx) (Frac.ofInt cy - Frac.ofNat (size / 6))
        (Frac.ofNat size * frac 55 100) (Frac.ofNat size * frac 35 100) CLOUD_WHITE ++
      draw_snow_dots cx (cy + ((size / 6 : Nat) : Int)) (Frac.ofNat size * frac 5 10).floor 5
  | .THUNDERSTORM =>
      draw_cloud (Frac.ofInt cx) (Frac.ofInt cy - Frac.ofNat (size / 5))
        (Frac.ofNat size * frac 6 10) (Frac.ofNat size * frac 38 100) CLOUD_GREY ++
      draw_bolt (Frac.ofInt cx) (Frac.ofInt cy + Frac.ofNat (size / 8))
  | .MIST =>
      (List.range 4).map (fun i =>
        let y := Frac.ofInt cy - Frac.ofNat (size / 6) + Frac.ofNat i * Frac.ofNat (size / 8)
        let half_w := Frac.ofNat (size / 3) - (Frac.ofNat i - frac 3 2).fabs * 4
        (lineCov (Frac.ofInt cx - half_w) y (Frac.ofInt cx + half_w) y 3, MIST_GREY))

/-- The `draw_icon` function of icons.py: a transparent RGBA canvas of
`size x size` with the category's shapes drawn in order. -/
def draw_icon (t : IconType) (size : Nat) : Img :=
  paintAll (iconShapes t size) (newImg .RGBA size size clearPixel)

/-- Whether any drawing call of the icon covers the pixel `(x, y)`. -/
def iconCovered (t : IconType) (size : Nat) (x y : Nat) : Bool :=
  (iconShapes t size).any (fun s => s.1 x y)

/-! ### Painting lemmas -/

theorem paintAll_mode (l : List Shape) (img : Img) : (paintAll l img).mode = img.mode := by
  induction l generalizing img with
  | nil => rfl
  | cons s rest ih => exact ih (drawShape s img)

theorem paintAll_width (l : List Shape) (img : Img) : (paintAll l img).width = img.width := by
  induction l generalizing img with
  | nil => rfl
  | cons s rest ih => exact ih (drawShape s img)

theorem paintAll_height (l : List Shape) (img : Img) : (paintAll l img).height = img.height := by
  induction l generalizing img with
  | nil => rfl
  | cons s rest ih => exact ih (drawShape s img)

theorem paintAll_px_not_covered (l : List Shape) (img : Img) (x y : Nat)
    (h : ∀ s ∈ l, s.1 x y = false) :
    (paintAll l img).px x y = img.px x y := by
  induction l generalizing img with
  | nil => rfl
  | cons s rest ih =>
    rw [paintAll, ih (drawShape s img) (fun u hu => h u (List.mem_cons_of_mem _ hu))]
    simp [drawShape, h s (List.mem_cons_self _ _)]

/-! ## Domain model (providers/__init__.py) -/

/-- The `WeatherForecast` dataclass.  Temperatures are Python floats,
embedded as exact fractions. -/
structure WeatherForecast where
  condition : PyStr
  temp_min_c : Frac
  temp_max_c : Frac
  icon_type : IconType
  location_name : PyStr := []
  humidity : Option Frac := none
  wind_speed_kph : Option Frac := none
deriving DecidableEq, Repr

/-- A wall-clock timestamp, as far as the renderer reads one: month, day,
hour, minute. -/
structure DateTime where
  month : Nat
  day : Nat
  hour : Nat
  minute : Nat
deriving DecidableEq, Repr

/-! ## Fonts (render.py, `_load_font`)

Which font file exists on disk, and what bounding box a loaded font
reports for a string, are external to the program; the renderer is
parameterized by both. -/

/-- A loaded font: a TrueType font from a path at a size, or the built-in
default bitmap font of `ImageFont.load_default()`. -/
inductive Font
  | truetype (path : String) (size : Nat)
  | default
deriving DecidableEq, Repr

/-- Which filesystem paths exist (`Path(path).exists()`). -/
abbrev FontEnv := String → Bool

/-- Font metrics: the `(x0, y0, x1, y1)` bounding box `draw.textbbox((0, 0), s, font)`
reports for a string. -/
abbrev Metrics := Font → PyStr → Int × Int × Int × Int

/-- The ordered candidate font paths of `_load_font`. -/
def fontCandidates : List String :=
  [ "/usr/share/fonts/truetype/dejavu/DejaVuSans-Bold.ttf",
    "/usr/share/fonts/truetype/liberation/LiberationSans-Bold.ttf",
    "/usr/share/fonts/TTF/DejaVuSans-Bold.ttf",
    "/System/Library/Fonts/Helvetica.ttc",
    "/System/Library/Fonts/SFCompact.ttf" ]

/-- The `_load_font` function of render.py: the first existing candidate
as a TrueType font, else the built-in default font. -/
def load_font (env : FontEnv) (size : Nat) : Font :=
  match fontCandidates.find? (fun p => env p) with
  | some p => .truetype p size
  | none => .default

/-- Rendered width of a string: `bbox[2] - bbox[0]`. -/
def bboxW (fm : Metrics) (fnt : Font) (s : PyStr) : Int :=
  (fm fnt s).2.2.1 - (fm fnt s).1

/-! ## Layout renderer (render.py) -/

def DISPLAY_WIDTH : Nat := 240

def DISPLAY_HEIGHT : Nat := 136

def BG_COLOR : Pixel := ⟨10, 10, 15, 255⟩

def TEMP_MIN_COLOR : Pixel := ⟨100, 180, 255, 255⟩

def TEMP_MAX_COLOR : Pixel := ⟨255, 120, 80, 255⟩

def LABEL_COLOR : Pixel := ⟨160, 160, 170, 255⟩

def DATE_COLOR : Pixel := ⟨130, 130, 140, 255⟩

def HEADER_HEIGHT : Nat := 18

def ICON_SIZE : Nat := 72

def ICON_X : Nat := 10

def ICON_Y : Nat := HEADER_HEIGHT + (DISPLAY_HEIGHT - HEADER_HEIGHT - ICON_SIZE) / 2

/-- Month abbreviations of `strftime("%b")` (C locale). -/
def monthAbbrev : Nat → String
  | 1 => "Jan"
  | 2 => "Feb"
  | 3 => "Mar"
  | 4 => "Apr"
  | 5 => "May"
  | 6 => "Jun"
  | 7 => "Jul"
  | 8 => "Aug"
  | 9 => "Sep"
  | 10 => "Oct"
  | 11 => "Nov"
  | 12 => "Dec"
  | _ => ""

/-- The header date string `now.strftime("%b %d")` (`%d` zero-pads). -/
def dateString (now : DateTime) : PyStr :=
  pystr (monthAbbrev now.month) ++ pystr " " ++
  (if now.day < 10 then pystr "0" ++ pystr (toString now.day) else pystr (toString now.day))

/-- The header time string of render.py:
`hour = now.hour % 12 or 12`, `ampm = "AM" if now.hour < 12 else "PM"`. -/
def timeString (hour : Nat) : PyStr :=
  let hour12 : Nat := if hour % 12 = 0 then 12 else hour % 12
  pystr (toString hour12) ++ (if hour < 12 then pystr "AM" else pystr "PM")

/-- Python `f"{q:.0f}"`: round half to even to an integer, printed in
decimal.  (CPython prints a literal `-0` for negative values rounding to
zero; that display quirk is not modeled and no claim depends on it.) -/
def roundHalfEven (q : Frac) : Int :=
  let fl := q.floor
  if Frac.blt (q - Frac.ofInt fl) (frac 1 2) then fl
  else if Frac.blt (frac 1 2) (q - Frac.ofInt fl) then fl + 1
  else if fl % 2 = 0 then fl else fl + 1

/-- The temperature display string `f"{t:.0f}"`. -/
def fmt0f (q : Frac) : PyStr := pystr (toString (roundHalfEven q))

/-- One drawing call of the renderer: a text draw at a position with a
fill color and font, or the masked paste of the synthesized icon. -/
inductive Op
  | text (x y : Int) (s : PyStr) (color : Pixel) (font : Font)
  | pasteIcon (x y : Nat) (icon : IconType) (size : Nat)
deriving DecidableEq, Repr

/-- The drawing calls `render_weather` issues, in source order, as a
function of the font environment, the font metrics, the forecast and the
supplied timestamp.  Every `//` of the source is `Int.fdiv` (Python floor
division). -/
def renderOps (env : FontEnv) (fm : Metrics) (f : WeatherForecast) (now : DateTime) : List Op :=
  let font_date := load_font env 12
  let date_str := dateString now
  let time_str := timeString now.hour
  let time_w := bboxW fm font_date time_str
  let font_temp := load_font env 34
  let font_label := load_font env 15
  let min_t := fmt0f f.temp_min_c
  let max_t := fmt0f f.temp_max_c
  let text_x : Int := (ICON_X : Int) + (ICON_SIZE : Int) + 12
  let text_area_w : Int := (DISPLAY_WIDTH : Int) - text_x - 8
  let content_top : Int := (HEADER_HEIGHT : Int)
  let content_h : Int := (DISPLAY_HEIGHT : Int) - content_top
  let temp_y : Int := content_top + content_h.fdiv 2 - 22
  let min_w := bboxW fm font_temp min_t
  let slash_w := bboxW fm font_temp (pystr "/")
  let max_w := bboxW fm font_temp max_t
  let deg_w := bboxW fm font_label (pystr "°C")
  let total_w := min_w + slash_w + max_w + 4 + deg_w
  let start_x := text_x + (text_area_w - total_w).fdiv 2
  let condition_font := load_font env 13
  let condition_text := pyCapitalize f.condition
  let cond_w := bboxW fm condition_font condition_text
  let cond_x := text_x + (text_area_w - cond_w).fdiv 2
  let cond_y := temp_y + 42
  [ Op.text 6 3 date_str DATE_COLOR font_date,
    Op.text ((DISPLAY_WIDTH : Int) - time_w - 6) 3 time_str DATE_COLOR font_date,
    Op.pasteIcon ICON_X ICON_Y f.icon_type ICON_SIZE,
    Op.text start_x temp_y min_t TEMP_MIN_COLOR font_temp,
    Op.text (start_x + min_w) temp_y (pystr "/") LABEL_COLOR font_temp,
    Op.text (start_x + min_w + slash_w) temp_y max_t TEMP_MAX_COLOR font_temp,
    Op.text (start_x + min_w + slash_w + max_w + 2) (temp_y + 4) (pystr "°C") LABEL_COLOR font_label,
    Op.text cond_x cond_y condition_text LABEL_COLOR condition_font ]

/-- Execute one renderer drawing call.  Text rasterization is abstracted:
a text draw covers the metrics-reported bounding box translated to the
draw position (no claim depends on glyph shapes).  The icon paste writes
the icon's color wherever the icon's alpha is non-zero (the icon's alpha
is always 0 or 255, so PIL's mask blending is exactly this overwrite). -/
def opStep (fm : Metrics) (img : Img) : Op → Img
  | .text x y s c fnt =>
      let b := fm fnt s
      drawShape (fun px py => decide (x + b.1 ≤ (px : Int) ∧ (px : Int) < x + b.2.2.1 ∧
        y + b.2.1 ≤ (py : Int) ∧ (py : Int) < y + b.2.2.2), c) img
  | .pasteIcon x y t size =>
      let ic := draw_icon t size
      { img with px := fun px py =>
          if x ≤ px ∧ px < x + size ∧ y ≤ py ∧ py < y + size ∧ (ic.px (px - x) (py - y)).a ≠ 0 then
            let p := ic.px (px - x) (py - y)
            ⟨p.r, p.g, p.b, 255⟩
          else img.px px py }

/-- Execute a list of renderer drawing calls in order. -/
def interp (fm : Metrics) : List Op → Img → Img
  | [], img => img
  | op :: rest, img => interp fm rest (opStep fm img op)

/-- The `render_weather` function of render.py, for a supplied timestamp
(when `now` is omitted the source reads the wall clock and proceeds
identically). -/
def render_weather (env : FontEnv) (fm : Metrics) (f : WeatherForecast) (now : DateTime) : Img :=
  interp fm (renderOps env fm f now) (newImg .RGB DISPLAY_WIDTH DISPLAY_HEIGHT BG_COLOR)

/-! ### Interpretation lemmas -/

theorem opStep_mode (fm : Metrics) (img : Img) (op : Op) : (opStep fm img op).mode = img.mode := by
  cases op <;> rfl

theorem opStep_width (fm : Metrics) (img : Img) (op : Op) : (opStep fm img op).width = img.width := by
  cases op <;> rfl

theorem opStep_height (fm : Metrics) (img : Img) (op : Op) : (opStep fm img op).height = img.height := by
  cases op <;> rfl

theorem interp_mode (fm : Metrics) (l : List Op) (img : Img) : (interp fm l img).mode = img.mode := by
  induction l generalizing img with
  | nil => rfl
  | cons op rest ih => rw [interp, ih, opStep_mode]

theorem interp_width (fm : Metrics) (l : List Op) (img : Img) : (interp fm l img).width = img.width := by
  induction l generalizing img with
  | nil => rfl
  | cons op rest ih => rw [interp, ih, opStep_width]

theorem interp_height (fm : Metrics) (l : List Op) (img : Img) : (interp fm l img).height = img.height := by
  induction l generalizing img with
  | nil => rfl
  | cons op rest ih => rw [interp, ih, opStep_height]

/-! ## BBC provider (providers/bbc.py, `get_forecast`) -/

/-- The fields `get_forecast` reads from `forecasts[0]["summary"]["report"]`
of the parsed forecast response; an absent key is `none`. -/
structure BBCReport where
  weatherTypeText : Option PyStr
  minTempC : Option Frac
  maxTempC : Option Frac
  humidityPercent : Option Frac
  windSpeedKph : Option Frac
deriving DecidableEq, Repr

/-- Exceptions raised by the embedded Python paths. -/
inductive PyError
  | valueError
  | attributeError
deriving DecidableEq, Repr

/-- The body of `BBCWeatherProvider.get_forecast` after the HTTP fetch
and JSON parse, on the `forecasts` list of the response (each entry
reduced to its summary report): raise on an empty list, default the
condition to "cloudy" and lower-case it, raise when either temperature
is absent, and build the `WeatherForecast`. -/
def get_forecast (location_id : PyStr) (forecasts : List BBCReport) :
    Except PyError WeatherForecast :=
  match forecasts with
  | [] => .error .valueError
  | today :: _ =>
    let condition := pyLower (today.weatherTypeText.getD (pystr "cloudy"))
    match today.minTempC, today.maxTempC with
    | some mn, some mx =>
        .ok { condition := condition
              temp_min_c := mn
              temp_max_c := mx
              icon_type := condition_to_icon condition
              location_name := location_id
              humidity := today.humidityPercent
              wind_speed_kph := today.windSpeedKph }
    | _, _ => .error .valueError

/-! ## Config persistence (config.py, `load_config`) -/

/-- A parsed JSON value (`json.loads` output). -/
inductive JValue
  | jnull
  | jbool (b : Bool)
  | jnum (q : Frac)
  | jstr (s : PyStr)
  | jarr (items : List JValue)
  | jobj (fields : List (PyStr × JValue))

/-- The `Config` dataclass.  Python dataclasses do not validate field
types, so each field holds whatever JSON value was loaded; the defaults
are those of config.py. -/
structure Config where
  provider : JValue := .jstr (pystr "bbc")
  location_id : JValue := .jstr []
  location_name : JValue := .jstr []
  update_hours : JValue := .jnum (Frac.ofInt 6)
  last_updated : JValue := .jnull
  insecure : JValue := .jbool false

/-- Set one dataclass field by key; a key that is not a `Config` field
leaves the config unchanged (the dict-comprehension filter
`if k in Config.__dataclass_fields__`). -/
def Config.setField (c : Config) (k : PyStr) (v : JValue) : Config :=
  if k = pystr "provider" then { c with provider := v }
  else if k = pystr "location_id" then { c with location_id := v }
  else if k = pystr "location_name" then { c with location_name := v }
  else if k = pystr "update_hours" then { c with update_hours := v }
  else if k = pystr "last_updated" then { c with last_updated := v }
  else if k = pystr "insecure" then { c with insecure := v }
  else c

/-- The three states of the config file `load_config` distinguishes: the
path does not exist; the text does not parse (`json.loads` raises
`JSONDecodeError`); or the text parses to a JSON value. -/
inductive ConfigFile
  | absent
  | invalidJson
  | validJson (v : JValue)

/-- The `load_config` function of config.py.  A missing file and a
`JSONDecodeError` yield the default config (the latter through the
`except (json.JSONDecodeError, TypeError)` clause).  A parsed JSON
object populates the known fields, later duplicate keys winning as in a
Python dict.  A parsed value that is not an object reaches
`data.items()`, which raises `AttributeError` - an exception the except
clause does not catch, so it propagates. -/
def load_config : ConfigFile → Except PyError Config
  | .absent => .ok {}
  | .invalidJson => .ok {}
  | .validJson (.jobj kvs) => .ok (kvs.foldl (fun c kv => c.setField kv.1 kv.2) {})
  | .validJson _ => .error .attributeError

/-! ## Claim-side layout quantities

Named, spec-facing forms of the layout numbers render.py computes, used
to state the layout claims. -/

/-- The left edge of the text column to the right of the icon. -/
def TEXT_COLUMN_X : Int := (ICON_X : Int) + (ICON_SIZE : Int) + 12

/-- The width of the text column. -/
def TEXT_COLUMN_W : Int := (DISPLAY_WIDTH : Int) - TEXT_COLUMN_X - 8

/-- The y coordinate of the temperature baseline: the content area's
vertical center minus the fixed 22 px offset. -/
def TEMP_BASELINE_Y : Int :=
  (HEADER_HEIGHT : Int) + ((DISPLAY_HEIGHT : Int) - (HEADER_HEIGHT : Int)).fdiv 2 - 22

/-- Modelled from the spec (claim C7 wording): the hour in 12-hour form
with no leading zero and no minutes, followed by "AM" for hours 0-11 and
"PM" for hours 12-23. -/
def specTimeString (hour : Nat) : PyStr :=
  (if hour % 12 = 0 then pystr "12" else pystr (toString (hour % 12))) ++
  (if hour < 12 then pystr "AM" else pystr "PM")

/-- Modelled from the spec (claim C5 wording): the condition with its
first character upper-cased and all remaining characters unchanged. -/
def capFirstRestUnchanged : PyStr → PyStr
  | [] => []
  | c :: rest => upperChar c :: rest

/-- The temperature run's total width per the spec: the min, slash and
max widths at the 34 pt font, a fixed gap of 4, and the unit width at
the 15 pt font. -/
def tempRunTotalW (env : FontEnv) (fm : Metrics) (f : WeatherForecast) : Int :=
  bboxW fm (load_font env 34) (fmt0f f.temp_min_c) +
  bboxW fm (load_font env 34) (pystr "/") +
  bboxW fm (load_font env 34) (fmt0f f.temp_max_c) + 4 +
  bboxW fm (load_font env 15) (pystr "°C")

/-- The temperature run's starting x per the spec: the column's left
edge plus half the difference between the column width and the run's
total width. -/
def tempRunStartX (env : FontEnv) (fm : Metrics) (f : WeatherForecast) : Int :=
  TEXT_COLUMN_X + (TEXT_COLUMN_W - tempRunTotalW env fm f).fdiv 2

/-- The renderer's 12-hour string equals the spec's description of it. -/
theorem timeString_eq_specTimeString (hour : Nat) :
    timeString hour = specTimeString hour := by
  rw [timeString, specTimeString]
  by_cases h12 : hour % 12 = 0
  · simp only [h12, if_true, if_pos]
    rfl
  · simp [h12]

/-! ## Concrete fixtures for witnesses and counterexamples -/

/-- Font metrics assigning the zero bounding box to every string. -/
def fmZero : Metrics := fun _ _ => (0, 0, 0, 0)

/-- A filesystem on which no candidate font path exists. -/
def envNone : FontEnv := fun _ => false

/-- A forecast whose condition has interior upper-case letters. -/
def forecastABC : WeatherForecast :=
  { condition := pystr "aBC", temp_min_c := Frac.ofInt 5, temp_max_c := Frac.ofInt 22,
    icon_type := .SUN }

/-- June 15, 14:30. -/
def nowSample : DateTime := ⟨6, 15, 14, 30⟩

/-- A summary report as the BBC endpoint returns one. -/
def reportSunny : BBCReport :=
  { weatherTypeText := some (pystr "Sunny"), minTempC := some (Frac.ofInt 5),
    maxTempC := some (Frac.ofInt 22), humidityPercent := none, windSpeedKph := none }

/-! ## Shared helper lemmas for the claims -/

/-- Dimensions and mode of every rendered bitmap. -/
theorem render_weather_size (env : FontEnv) (fm : Metrics) (f : WeatherForecast)
    (now : DateTime) :
    (render_weather env fm f now).mode = PixMode.RGB ∧
    (render_weather env fm f now).width = 240 ∧
    (render_weather env fm f now).height = 136 := by
  refine ⟨?_, ?_, ?_⟩
  · rw [render_weather, interp_mode]
    rfl
  · rw [render_weather, interp_width]
    rfl
  · rw [render_weather, interp_height]
    rfl

/-! ## The claims -/

/-- Claim C1: for every forecast (any temperatures, any condition string,
any icon category) and every supplied timestamp - and every font
environment and font metrics, which the source reads from the machine -
`render_weather` returns a bitmap in RGB mode of exactly 240 x 136
pixels. -/
theorem C1_render_dimensions (env : FontEnv) (fm : Metrics) (f : WeatherForecast)
    (now : DateTime) :
    (render_weather env fm f now).mode = PixMode.RGB ∧
    (render_weather env fm f now).width = 240 ∧
    (render_weather env fm f now).height = 136 :=
  render_weather_size env fm f now

/-- Claim C2: the classifier is a total function equal, on every string,
to trimming, lower-casing and exact lookup in the section 4.1 vocabulary
table with Cloud as the fallback for any miss; on the cited examples the
result is Sun, Rain, Mist, Snow and Thunderstorm. -/
theorem C2_classifier_total_table :
    (∀ condition, condition_to_icon condition =
      (alookup (pyLower (pyStrip condition)) specConditionTable).getD IconType.CLOUD) ∧
    condition_to_icon (pystr "sunny") = IconType.SUN ∧
    condition_to_icon (pystr "sleet") = IconType.RAIN ∧
    condition_to_icon (pystr "hazy") = IconType.MIST ∧
    condition_to_icon (pystr "cloudy with heavy snow") = IconType.SNOW ∧
    condition_to_icon (pystr "thundery showers") = IconType.THUNDERSTORM := by
  refine ⟨?_, by decide, by decide, by decide, by decide, by decide⟩
  intro condition
  rw [condition_to_icon, pyStrip_pyLower, alookup_tables_agree]

/-- Claim C3: for every category and positive size, `draw_icon` returns
an RGBA bitmap of exactly size x size pixels, and every pixel of the
canvas not covered by a drawn shape is fully transparent. -/
theorem C3_draw_icon_dims_transparent (t : IconType) (size : Nat) (hpos : 0 < size) :
    (draw_icon t size).mode = PixMode.RGBA ∧
    (draw_icon t size).width = size ∧
    (draw_icon t size).height = size ∧
    ∀ x y, x < size → y < size → iconCovered t size x y = false →
      (draw_icon t size).px x y = clearPixel := by
  refine ⟨?_, ?_, ?_, ?_⟩
  · rw [draw_icon, paintAll_mode]
    rfl
  · rw [draw_icon, paintAll_width]
    rfl
  · rw [draw_icon, paintAll_height]
    rfl
  · intro x y _ _ hcov
    have hall : ∀ s ∈ iconShapes t size, s.1 x y = false := by
      simp only [iconCovered] at hcov
      rw [List.any_eq_false] at hcov
      intro s hs
      simpa using hcov s hs
    rw [draw_icon, paintAll_px_not_covered _ _ _ _ hall]
    rfl

/-- Witness for C3 at the cited instances: draw(Sun, 120) is 120 wide and
draw(Cloud, 16) is 16 wide. -/
theorem C3_witness :
    (draw_icon .SUN 120).width = 120 ∧ (draw_icon .CLOUD 16).width = 16 :=
  ⟨(C3_draw_icon_dims_transparent .SUN 120 (by decide)).2.1,
   (C3_draw_icon_dims_transparent .CLOUD 16 (by decide)).2.1⟩

/-- Claim C4: for every category, draw(category, 80) has at least one
pixel of non-zero alpha. -/
theorem C4_draw_icon_not_blank (t : IconType) :
    ∃ x y, x < 80 ∧ y < 80 ∧ ((draw_icon t 80).px x y).a ≠ 0 := by
  cases t with
  | SUN => exact ⟨40, 40, by decide, by decide, by decide⟩
  | PARTLY_CLOUDY => exact ⟨30, 30, by decide, by decide, by decide⟩
  | CLOUD => exact ⟨40, 40, by decide, by decide, by decide⟩
  | RAIN => exact ⟨40, 30, by decide, by decide, by decide⟩
  | SNOW => exact ⟨40, 30, by decide, by decide, by decide⟩
  | THUNDERSTORM => exact ⟨40, 28, by decide, by decide, by decide⟩
  | MIST => exact ⟨40, 27, by decide, by decide, by decide⟩

/-- Counterexample to claim C5 as stated: for the condition "aBC" the
renderer draws "Abc" (Python `str.capitalize` lower-cases the tail),
while the claim's reading - first character upper-cased, the rest
unchanged - demands "ABC". -/
theorem C5_counterexample :
    (renderOps envNone fmZero forecastABC nowSample).get? 7 =
      some (Op.text 163 97 (pystr "Abc") LABEL_COLOR Font.default) ∧
    capFirstRestUnchanged (pystr "aBC") = pystr "ABC" ∧
    pystr "Abc" ≠ pystr "ABC" := by
  exact ⟨by decide, by decide, by decide⟩

/-- Claim C5 amended: the condition label drawn is the condition with
its first character upper-cased and the remaining characters
lower-cased (Python `str.capitalize` semantics; the tail is unchanged
exactly when it is already lower-case, as provider conditions are),
drawn exactly 42 px below the temperature baseline and horizontally
centered in the text column. -/
theorem C5_condition_label_layout (env : FontEnv) (fm : Metrics) (f : WeatherForecast)
    (now : DateTime) :
    (renderOps env fm f now).get? 7 =
      some (Op.text
        (TEXT_COLUMN_X +
          (TEXT_COLUMN_W - bboxW fm (load_font env 13) (pyCapitalize f.condition)).fdiv 2)
        (TEMP_BASELINE_Y + 42)
        (pyCapitalize f.condition) LABEL_COLOR (load_font env 13)) := rfl

/-- Claim C6: the temperature run's total width is the sum of the min,
slash and max widths at the large font, a fixed gap, and the unit width
at the smaller font; the run is drawn min, slash, max, gap, unit from a
starting x equal to the column's left edge plus half the difference
between the column width and that total width. -/
theorem C6_temperature_run_centered (env : FontEnv) (fm : Metrics) (f : WeatherForecast)
    (now : DateTime) :
    (renderOps env fm f now).get? 3 = some (Op.text (tempRunStartX env fm f)
      TEMP_BASELINE_Y (fmt0f f.temp_min_c) TEMP_MIN_COLOR (load_font env 34)) ∧
    (renderOps env fm f now).get? 4 = some (Op.text
      (tempRunStartX env fm f + bboxW fm (load_font env 34) (fmt0f f.temp_min_c))
      TEMP_BASELINE_Y (pystr "/") LABEL_COLOR (load_font env 34)) ∧
    (renderOps env fm f now).get? 5 = some (Op.text
      (tempRunStartX env fm f + bboxW fm (load_font env 34) (fmt0f f.temp_min_c) +
        bboxW fm (load_font env 34) (pystr "/"))
      TEMP_BASELINE_Y (fmt0f f.temp_max_c) TEMP_MAX_COLOR (load_font env 34)) ∧
    (renderOps env fm f now).get? 6 = some (Op.text
      (tempRunStartX env fm f + bboxW fm (load_font env 34) (fmt0f f.temp_min_c) +
        bboxW fm (load_font env 34) (pystr "/") +
        bboxW fm (load_font env 34) (fmt0f f.temp_max_c) + 2)
      (TEMP_BASELINE_Y + 4) (pystr "°C") LABEL_COLOR (load_font env 15)) :=
  ⟨rfl, rfl, rfl, rfl⟩

/-- Claim C7: for every timestamp the header time string is the hour in
12-hour form with no leading zero and no minutes followed by AM for
hours 0-11 and PM for hours 12-23 (hour 0 gives "12AM", hour 12 gives
"12PM"), drawn so that its right edge sits at canvas width minus 6,
which is 234. -/
theorem C7_time_header (env : FontEnv) (fm : Metrics) (f : WeatherForecast)
    (now : DateTime) (h : now.hour < 24) :
    (renderOps env fm f now).get? 1 = some (Op.text
      ((DISPLAY_WIDTH : Int) - bboxW fm (load_font env 12) (specTimeString now.hour) - 6) 3
      (specTimeString now.hour) DATE_COLOR (load_font env 12)) ∧
    ((DISPLAY_WIDTH : Int) - bboxW fm (load_font env 12) (specTimeString now.hour) - 6) +
      bboxW fm (load_font env 12) (specTimeString now.hour) = 234 ∧
    specTimeString 0 = pystr "12AM" ∧ specTimeString 12 = pystr "12PM" := by
  refine ⟨?_, ?_, by decide, by decide⟩
  · rw [← timeString_eq_specTimeString]
    rfl
  · simp only [DISPLAY_WIDTH]
    omega

/-- Witness for C7 at the spec's example timestamp (14:30): the header
time op is drawn at x = 234 under the zero metrics. -/
theorem C7_witness :
    (renderOps envNone fmZero forecastABC nowSample).get? 1 = some (Op.text
      ((DISPLAY_WIDTH : Int) -
        bboxW fmZero (load_font envNone 12) (specTimeString nowSample.hour) - 6) 3
      (specTimeString nowSample.hour) DATE_COLOR (load_font envNone 12)) :=
  (C7_time_header envNone fmZero forecastABC nowSample (by decide)).1

/-- Claim C8: rendering is total - for every forecast, including
temperatures that are negative or violate min <= max, a fixed-size RGB
bitmap is produced - and when no candidate font path exists,
`_load_font` degrades to the built-in default font instead of
propagating an error. -/
theorem C8_render_never_errors :
    (∀ env size, (∀ p ∈ fontCandidates, env p = false) →
      load_font env size = Font.default) ∧
    (∀ env fm f now, (render_weather env fm f now).mode = PixMode.RGB ∧
      (render_weather env fm f now).width = 240 ∧
      (render_weather env fm f now).height = 136) := by
  constructor
  · intro env size h
    rw [load_font, List.find?_eq_none.mpr (fun p hp => by simp [h p hp])]
  · intro env fm f now
    exact render_weather_size env fm f now

/-- Claim C9 at the decisive inputs: a missing file and an unparsable
file load as the all-default config, and unknown keys of a JSON object
are ignored while known keys populate the config - but a file holding
valid JSON that is not an object makes `load_config` raise
AttributeError (uncaught by its `except (JSONDecodeError, TypeError)`
clause) instead of returning the default, so the code contradicts the
claim on that input. -/
theorem C9_load_config_behavior :
    load_config .absent = .ok {} ∧
    load_config .invalidJson = .ok {} ∧
    load_config (.validJson (.jobj [(pystr "provider", .jstr (pystr "bbc")),
      (pystr "unknown_key", .jnum (Frac.ofInt 99))])) = .ok {} ∧
    load_config (.validJson (.jarr [.jnum (Frac.ofInt 1), .jnum (Frac.ofInt 2)])) =
      .error .attributeError :=
  ⟨rfl, rfl, rfl, rfl⟩

/-- Claim C10: every forecast `get_forecast` returns has a fully
lower-cased condition, and its icon category is the classifier applied
to that condition. -/
theorem C10_get_forecast_invariant (location_id : PyStr) (forecasts : List BBCReport)
    (f : WeatherForecast) (h : get_forecast location_id forecasts = .ok f) :
    pyLower f.condition = f.condition ∧ f.icon_type = condition_to_icon f.condition := by
  cases forecasts with
  | nil => simp [get_forecast] at h
  | cons today rest =>
    cases hmn : today.minTempC with
    | none => simp [get_forecast, hmn] at h
    | some mn =>
      cases hmx : today.maxTempC with
      | none => simp [get_forecast, hmn, hmx] at h
      | some mx =>
        simp only [get_forecast, hmn, hmx, Except.ok.injEq] at h
        subst h
        exact ⟨pyLower_idem _, rfl⟩

/-- Witness for C10 at a concrete response: the condition "Sunny" comes
back lower-cased with the Sun category. -/
theorem C10_witness :
    pyLower (pystr "sunny") = pystr "sunny" ∧
    IconType.SUN = condition_to_icon (pystr "sunny") :=
  C10_get_forecast_invariant (pystr "2643743") [reportSunny]
    { condition := pystr "sunny", temp_min_c := Frac.ofInt 5, temp_max_c := Frac.ofInt 22,
      icon_type := IconType.SUN, location_name := pystr "2643743" } (by rfl)

end RT82
